import Mathlib

/-
Verification of the Frame Synchronization & Presentation Lifecycle subsystem
of the Vulkan-Course renderer (src/src of the repository), as a shallow
embedding in Lean 4.

Each definition below mirrors one function or data structure of the C++
source; line references point into the repository files.  Machine integers
are modelled as Nat, with an explicit reduction modulo 2^32 at the single
arithmetic operation where a uint32_t overflow could matter.  GPU handles
are modelled as opaque Nat tokens; side-effecting routines are modelled as
functions that return the sequence of native calls (events) they perform,
in order, together with the updated renderer state where relevant.
-/

namespace VulkanCourse

/-! ## Deletion queue (src/src/Utilities.h, lines 121-155, `function_queue_t`) -/

/-- Mirrors `function_queue_t`: a `std::deque` of zero-argument callbacks.
Callbacks are modelled abstractly as values of a type `α`; invoking a
callback is modelled by recording it in an invocation list. -/
structure function_queue_t (α : Type) where
  deque : List α
deriving DecidableEq

/-- Mirrors `function_queue_t::push_function`, which does
`deque.push_back(function)` (append at the back). -/
def function_queue_t.push_function {α : Type} (q : function_queue_t α) (f : α) :
    function_queue_t α :=
  ⟨q.deque ++ [f]⟩

/-- Mirrors `function_queue_t::flush`: iterate the deque through
`std::ranges::reverse_view`, invoking each callback, then `deque.clear()`.
Returns the list of invoked callbacks in invocation order, paired with the
state of the queue after the flush. -/
def function_queue_t.flush {α : Type} (q : function_queue_t α) :
    List α × function_queue_t α :=
  (q.deque.reverse, ⟨[]⟩)

/-- Mirrors `function_queue_t::empty`. -/
def function_queue_t.empty {α : Type} (q : function_queue_t α) : Bool :=
  q.deque.isEmpty

/-! ## Vulkan enumerations and structs used by the swapchain code -/

/-- The `VkFormat` values that appear in `ChooseBestSurfaceFormat`
(src/src/VulkanRenderer.cpp, lines 1865-1886); every other format is
represented by its numeric code. -/
inductive VkFormat where
  | UNDEFINED
  | R8G8B8A8_UNORM
  | B8G8R8A8_UNORM
  | otherFormat (code : Nat)
deriving DecidableEq

/-- The `VkColorSpaceKHR` values relevant to format selection. -/
inductive VkColorSpaceKHR where
  | SRGB_NONLINEAR
  | otherColorSpace (code : Nat)
deriving DecidableEq

/-- Mirrors `VkSurfaceFormatKHR` (a format together with a color space). -/
structure VkSurfaceFormatKHR where
  format : VkFormat
  colorSpace : VkColorSpaceKHR
deriving DecidableEq

instance : Inhabited VkSurfaceFormatKHR :=
  ⟨⟨VkFormat.UNDEFINED, VkColorSpaceKHR.SRGB_NONLINEAR⟩⟩

/-- The `VkPresentModeKHR` values that appear in
`ChooseBestPresentationMode`; every other mode is represented by its
numeric code. -/
inductive VkPresentModeKHR where
  | IMMEDIATE
  | MAILBOX
  | FIFO
  | FIFO_RELAXED
  | otherMode (code : Nat)
deriving DecidableEq

/-- Mirrors `VkExtent2D`; `width` and `height` are uint32_t values. -/
structure VkExtent2D where
  width : Nat
  height : Nat
deriving DecidableEq

/-- The value `std::numeric_limits<uint32_t>::max()`. -/
def UINT32_MAX : Nat := 4294967295

/-- The fields of `VkSurfaceCapabilitiesKHR` that the swapchain-creation
code reads (src/src/VulkanRenderer.cpp, lines 373-382 and 1907-1935). -/
structure VkSurfaceCapabilitiesKHR where
  minImageCount : Nat
  maxImageCount : Nat
  currentExtent : VkExtent2D
  minImageExtent : VkExtent2D
  maxImageExtent : VkExtent2D
deriving DecidableEq

/-- The `VkResult` values relevant to the draw loop; every other status is
represented by its numeric code. -/
inductive VkResult where
  | SUCCESS
  | SUBOPTIMAL_KHR
  | ERROR_OUT_OF_DATE_KHR
  | otherResult (code : Int)
deriving DecidableEq

/-! ## Swapchain selection functions (src/src/VulkanRenderer.cpp) -/

/-- The condition tested by the search loop of `ChooseBestSurfaceFormat`
(lines 1874-1881): the format is `VK_FORMAT_R8G8B8A8_UNORM` or
`VK_FORMAT_B8G8R8A8_UNORM` and the color space is
`VK_COLOR_SPACE_SRGB_NONLINEAR_KHR`. -/
def isPreferredSurfaceFormat (f : VkSurfaceFormatKHR) : Bool :=
  (f.format == VkFormat.R8G8B8A8_UNORM || f.format == VkFormat.B8G8R8A8_UNORM)
    && f.colorSpace == VkColorSpaceKHR.SRGB_NONLINEAR

/-- Mirrors `VulkanRenderer::ChooseBestSurfaceFormat` (lines 1865-1886):
if the list is a singleton whose format is `VK_FORMAT_UNDEFINED`, return
the fixed default; otherwise return the first entry satisfying the loop
condition, and failing that the first entry of the list.  The C++ indexes
`InFormats[0]`, which assumes a non-empty list; `headI` supplies the
`Inhabited` default in the (never exercised) empty case. -/
def ChooseBestSurfaceFormat (InFormats : List VkSurfaceFormatKHR) :
    VkSurfaceFormatKHR :=
  if InFormats.length = 1 ∧ InFormats.headI.format = VkFormat.UNDEFINED then
    ⟨VkFormat.R8G8B8A8_UNORM, VkColorSpaceKHR.SRGB_NONLINEAR⟩
  else
    match InFormats.find? isPreferredSurfaceFormat with
    | some f => f
    | none => InFormats.headI

/-- Mirrors `VulkanRenderer::ChooseBestPresentationMode` (lines 1888-1905):
return the first occurrence of `VK_PRESENT_MODE_MAILBOX_KHR`, and
`VK_PRESENT_MODE_FIFO_KHR` if the loop finds none. -/
def ChooseBestPresentationMode (InPresentationModes : List VkPresentModeKHR) :
    VkPresentModeKHR :=
  match InPresentationModes.find? (fun m => m == VkPresentModeKHR.MAILBOX) with
  | some m => m
  | none => VkPresentModeKHR.FIFO

/-- Mirrors `VulkanRenderer::ChooseSwapExtent` (lines 1907-1935).  The C++
queries the framebuffer size from GLFW; here that size is an explicit
argument.  When the surface dictates a fixed size
(`currentExtent.width != UINT32_MAX`) that size is returned; otherwise the
framebuffer size is clamped per component by
`std::max(min, std::min(max, value))`. -/
def ChooseSwapExtent (InSurfaceCapabilities : VkSurfaceCapabilitiesKHR)
    (framebufferSize : VkExtent2D) : VkExtent2D :=
  if InSurfaceCapabilities.currentExtent.width ≠ UINT32_MAX then
    InSurfaceCapabilities.currentExtent
  else
    ⟨max InSurfaceCapabilities.minImageExtent.width
       (min InSurfaceCapabilities.maxImageExtent.width framebufferSize.width),
     max InSurfaceCapabilities.minImageExtent.height
       (min InSurfaceCapabilities.maxImageExtent.height framebufferSize.height)⟩

/-- Mirrors the image-count computation of `VulkanRenderer::CreateSwapChain`
(lines 373-382): `imageCount = minImageCount + 1` in uint32_t arithmetic,
then clamped to `maxImageCount` when that bound is nonzero and exceeded. -/
def swapChainImageCount (caps : VkSurfaceCapabilitiesKHR) : Nat :=
  let imageCount := (caps.minImageCount + 1) % 2 ^ 32
  if caps.maxImageCount > 0 ∧ caps.maxImageCount < imageCount then
    caps.maxImageCount
  else
    imageCount

/-! ## The draw loop (src/src/VulkanRenderer.cpp, lines 105-179, `Draw`) -/

/-- The constant `MAX_FRAME_DRAWS` of src/src/Utilities.h, line 56. -/
def MAX_FRAME_DRAWS : Nat := 2

/-- The renderer state read and written by the control flow of `Draw`:
`m_currentFrame` (uint32_t, starts at 0) and the `m_framebufferResized`
flag set by the GLFW resize callback. -/
structure DrawState where
  currentFrame : Nat
  framebufferResized : Bool
deriving DecidableEq

/-- The observable outcome of one `Draw` call: the updated state and
whether `RecreateSwapChain()` was invoked during the call. -/
structure DrawOutcome where
  state : DrawState
  recreatedSwapChain : Bool
deriving DecidableEq

/-- Mirrors the control flow of `VulkanRenderer::Draw`
(src/src/VulkanRenderer.cpp, lines 105-179).  The results of the acquire
and present calls are inputs of the model.  Note that the source discards
the `VkResult` returned by `vkAcquireNextImageKHR` (line 121 has no
`VK_CHECK` and no assignment); only `presentResult` (line 170) and
`m_framebufferResized` feed the recreation test of line 171.  When the
test succeeds the flag is cleared and `RecreateSwapChain()` runs
(lines 172-175); in every case `m_currentFrame` then advances by
`(m_currentFrame + 1) % MAX_FRAME_DRAWS` (line 178). -/
def Draw (s : DrawState) (acquireResult presentResult : VkResult) : DrawOutcome :=
  let _unusedAcquireStatus := acquireResult
  let recreate := (presentResult == VkResult.ERROR_OUT_OF_DATE_KHR)
               || (presentResult == VkResult.SUBOPTIMAL_KHR)
               || s.framebufferResized
  { state :=
      { currentFrame := (s.currentFrame + 1) % MAX_FRAME_DRAWS,
        framebufferResized := if recreate then false else s.framebufferResized },
    recreatedSwapChain := recreate }

/-- A sequence of `Draw` calls, fed by the acquire/present results each
iteration observes. -/
def DrawSeq (s : DrawState) (results : List (VkResult × VkResult)) : DrawState :=
  results.foldl (fun st r => (Draw st r.1 r.2).state) s

/-! ## Swapchain recreation (src/src/VulkanRenderer.cpp, lines 465-491,
`RecreateSwapChain`, and the cleanup routines it calls) -/

/-- One native call performed during swapchain recreation.  Handles are
opaque Nat tokens. -/
inductive TeardownEvent where
  | deviceWaitIdle
  | destroyFramebuffer (h : Nat)
  | destroyImageView (h : Nat)
  | destroySwapchain
  | destroyUniformBuffer (h : Nat)
  | freeUniformBufferMemory (h : Nat)
  | destroyDepthImageView
  | destroyDepthImage
  | freeDepthImageMemory
  | callCreateSwapChain
  | callCreateDepthBufferImage
  | callCreateFramebuffers
  | callCreateViewProjUBO
deriving DecidableEq

/-- The renderer members that the cleanup routines iterate over:
`m_swapChainFramebuffers`, `m_swapChainImages` (their image-view handles),
`m_vpUniformBuffers` and `m_vpUniformBuffersMemory`. -/
structure SwapchainResources where
  swapChainFramebuffers : List Nat
  swapChainImages : List Nat
  vpUniformBuffers : List Nat
  vpUniformBuffersMemory : List Nat
deriving DecidableEq

/-- Mirrors `VulkanRenderer::CleanupSwapChain` (lines 1582-1599): destroy
every framebuffer and clear the vector, destroy every image view and clear
the vector, then destroy the swapchain.  Returns the call sequence and the
updated members. -/
def CleanupSwapChain (r : SwapchainResources) :
    List TeardownEvent × SwapchainResources :=
  (r.swapChainFramebuffers.map TeardownEvent.destroyFramebuffer
     ++ r.swapChainImages.map TeardownEvent.destroyImageView
     ++ [TeardownEvent.destroySwapchain],
   { r with swapChainFramebuffers := [], swapChainImages := [] })

/-- Mirrors `VulkanRenderer::CleanupFramebuffers` (lines 1601-1619), which
despite its name destroys the per-image view-projection uniform buffers:
`for (i = 0; i < m_swapChainImages.size(); ++i)` destroy
`m_vpUniformBuffers[i]` and free `m_vpUniformBuffersMemory[i]`, then clear
both vectors.  The loop bound is the size of `m_swapChainImages` at call
time. -/
def CleanupFramebuffers (r : SwapchainResources) :
    List TeardownEvent × SwapchainResources :=
  ((List.range r.swapChainImages.length).map (fun i =>
      [TeardownEvent.destroyUniformBuffer (r.vpUniformBuffers.getD i 0),
       TeardownEvent.freeUniformBufferMemory (r.vpUniformBuffersMemory.getD i 0)])
     |>.flatten,
   { r with vpUniformBuffers := [], vpUniformBuffersMemory := [] })

/-- Mirrors `VulkanRenderer::CleanupDepthBuffer` (lines 1621-1628): destroy
the depth image view, the depth image, and free its memory, in that
order. -/
def CleanupDepthBuffer (r : SwapchainResources) :
    List TeardownEvent × SwapchainResources :=
  ([TeardownEvent.destroyDepthImageView, TeardownEvent.destroyDepthImage,
    TeardownEvent.freeDepthImageMemory], r)

/-- Mirrors `VulkanRenderer::RecreateSwapChain` (lines 465-491): after the
framebuffer-size wait loop, `vkDeviceWaitIdle`, then `CleanupSwapChain()`,
`CleanupFramebuffers()`, `CleanupDepthBuffer()`, then `CreateSwapChain()`,
`CreateDepthBufferImage()`, `CreateFramebuffers()`, `CreateViewProjUBO()`.
Returns the full sequence of native calls, in program order. -/
def RecreateSwapChain (r : SwapchainResources) : List TeardownEvent :=
  let c1 := CleanupSwapChain r
  let c2 := CleanupFramebuffers c1.2
  let c3 := CleanupDepthBuffer c2.2
  TeardownEvent.deviceWaitIdle ::
    (c1.1 ++ c2.1 ++ c3.1
      ++ [TeardownEvent.callCreateSwapChain, TeardownEvent.callCreateDepthBufferImage,
          TeardownEvent.callCreateFramebuffers, TeardownEvent.callCreateViewProjUBO])

/-! ## Staged upload (src/src/Mesh.cpp, lines 20-96, and
src/src/CommandBuffer.hpp / src/src/Utilities.h `CopyBuffer`) -/

/-- One native call performed during a vertex- or index-buffer upload. -/
inductive UploadEvent where
  | createStagingBuffer
  | mapMemory
  | memcpyData
  | unmapMemory
  | createDeviceLocalBuffer
  | allocateCommandBuffers
  | beginCommandBuffer
  | cmdCopyBuffer
  | endCommandBuffer
  | queueSubmit
  | queueWaitIdle
  | freeCommandBuffers
  | destroyStagingBuffer
  | freeStagingMemory
deriving DecidableEq

/-- Mirrors `CommandBuffer::BeginCommandBuffer`
(src/src/CommandBuffer.hpp, lines 67-97): allocate the command buffer and
begin recording. -/
def BeginCommandBuffer : List UploadEvent :=
  [UploadEvent.allocateCommandBuffers, UploadEvent.beginCommandBuffer]

/-- Mirrors `CommandBuffer::EndCommandBuffer`
(src/src/CommandBuffer.hpp, lines 107-126): end recording, submit to the
queue, `vkQueueWaitIdle`, and free the command buffer back to the pool. -/
def EndCommandBuffer : List UploadEvent :=
  [UploadEvent.endCommandBuffer, UploadEvent.queueSubmit,
   UploadEvent.queueWaitIdle, UploadEvent.freeCommandBuffers]

/-- The RAII scope of a `CommandBuffer` object: the constructor runs
`BeginCommandBuffer`, the body records commands, and the destructor runs
`EndCommandBuffer` when the scope closes. -/
def CommandBufferScope (recorded : List UploadEvent) : List UploadEvent :=
  BeginCommandBuffer ++ recorded ++ EndCommandBuffer

/-- Mirrors `CopyBuffer` (src/src/Utilities.h, lines 374-390): a
`CommandBuffer` scope whose body records one `vkCmdCopyBuffer`; the RAII
destructor therefore submits and waits before `CopyBuffer` returns. -/
def CopyBuffer : List UploadEvent :=
  CommandBufferScope [UploadEvent.cmdCopyBuffer]

/-- Mirrors `Mesh::CreateVertexBuffer` (src/src/Mesh.cpp, lines 20-57):
create the staging buffer, map/memcpy/unmap, create the device-local
vertex buffer, `CopyBuffer`, then destroy the staging buffer and free its
memory. -/
def CreateVertexBuffer : List UploadEvent :=
  [UploadEvent.createStagingBuffer, UploadEvent.mapMemory, UploadEvent.memcpyData,
   UploadEvent.unmapMemory, UploadEvent.createDeviceLocalBuffer]
    ++ CopyBuffer
    ++ [UploadEvent.destroyStagingBuffer, UploadEvent.freeStagingMemory]

/-- Mirrors `Mesh::CreateIndexBuffer` (src/src/Mesh.cpp, lines 59-96),
which performs the same call sequence for the index data. -/
def CreateIndexBuffer : List UploadEvent :=
  [UploadEvent.createStagingBuffer, UploadEvent.mapMemory, UploadEvent.memcpyData,
   UploadEvent.unmapMemory, UploadEvent.createDeviceLocalBuffer]
    ++ CopyBuffer
    ++ [UploadEvent.destroyStagingBuffer, UploadEvent.freeStagingMemory]

/-! ## Model update (src/src/VulkanRenderer.h, lines 480-486, `UpdateModel`,
and src/src/Mesh.h, lines 129-133, `SetModel`) -/

/-- Models `glm::mat4`.  The claims treat the matrix opaquely, so its
entries are modelled as integers; no claim depends on floating-point
arithmetic. -/
structure mat4 where
  entries : Fin 4 → Fin 4 → Int

instance : DecidableEq mat4 :=
  fun a b =>
    decidable_of_iff (a.entries = b.entries) (by cases a; cases b; simp)

/-- Mirrors `model_t` (src/src/Mesh.h, lines 15-18). -/
structure model_t where
  mat : mat4
deriving DecidableEq

/-- The data members of class `Mesh` (src/src/Mesh.h, lines 62-79), with
Vulkan handles as opaque Nat tokens.  The `m_devices` member (a pair of
device handles) is modelled by two tokens. -/
structure Mesh where
  vertexCount : Int
  vertexBuffer : Nat
  vertexBufferMemory : Nat
  indexCount : Int
  indexBuffer : Nat
  indexBufferMemory : Nat
  physicalDevice : Nat
  logicalDevice : Nat
  model : model_t
  textureID : Int
deriving DecidableEq

/-- Mirrors `Mesh::SetModel` (src/src/Mesh.h, lines 129-133):
`m_model.mat = model`. -/
def Mesh.SetModel (m : Mesh) (model : mat4) : Mesh :=
  { m with model := { mat := model } }

/-- The renderer state visible to `UpdateModel`: the mesh list plus the
other mutable members of the render loop, which `UpdateModel` must leave
untouched. -/
structure RendererModelState where
  meshList : List Mesh
  currentFrame : Nat
  framebufferResized : Bool
deriving DecidableEq

instance : Inhabited mat4 := ⟨⟨fun _ _ => 0⟩⟩

instance : Inhabited Mesh :=
  ⟨⟨0, 0, 0, 0, 0, 0, 0, 0, ⟨default⟩, -1⟩⟩

/-- Mirrors `VulkanRenderer::UpdateModel` (src/src/VulkanRenderer.h,
lines 480-486): `if (modelID >= m_meshList.size()) return;` then
`m_meshList[modelID].SetModel(newModel)`. -/
def UpdateModel (r : RendererModelState) (modelID : Nat) (newModel : mat4) :
    RendererModelState :=
  if modelID ≥ r.meshList.length then r
  else
    { r with meshList :=
        r.meshList.set modelID ((r.meshList.getD modelID default).SetModel newModel) }

/-! ## Theorems -/

/-- C1: for every sequence of callbacks registered with `push_function` in
order `[A, B, C]`, `flush()` invokes exactly `C`, then `B`, then `A`, each
exactly once, and leaves the queue empty afterward; `flush()` on an empty
queue invokes nothing and leaves the queue empty. -/
theorem deletion_queue_flush_reverse {α : Type} (A B C : α) :
    (((((function_queue_t.mk (α := α) []).push_function A).push_function B).push_function
        C).flush).1 = [C, B, A]
    ∧ (((((function_queue_t.mk (α := α) []).push_function A).push_function B).push_function
        C).flush).2.deque = []
    ∧ (function_queue_t.mk (α := α) []).flush = ([], ⟨[]⟩) := by
  refine ⟨?_, rfl, rfl⟩
  simp [function_queue_t.push_function, function_queue_t.flush]

/-- C2 counterexample: the claim demands that an out-of-date status from
the acquire call triggers swapchain recreation in that iteration, but the
source discards the result of `vkAcquireNextImageKHR`: with the resize
flag clear, acquire reporting `ERROR_OUT_OF_DATE_KHR`, and present
reporting `SUCCESS`, `Draw` does not call `RecreateSwapChain`. -/
theorem draw_acquire_status_ignored :
    (Draw ⟨0, false⟩ VkResult.ERROR_OUT_OF_DATE_KHR
        VkResult.SUCCESS).recreatedSwapChain = false
    ∧ ¬ (∀ (s : DrawState) (a p : VkResult),
          (a = VkResult.ERROR_OUT_OF_DATE_KHR ∨ a = VkResult.SUBOPTIMAL_KHR
            ∨ p = VkResult.ERROR_OUT_OF_DATE_KHR ∨ p = VkResult.SUBOPTIMAL_KHR
            ∨ s.framebufferResized = true) →
          (Draw s a p).recreatedSwapChain = true) := by
  refine ⟨rfl, fun hall => ?_⟩
  have h := hall ⟨0, false⟩ VkResult.ERROR_OUT_OF_DATE_KHR VkResult.SUCCESS (Or.inl rfl)
  simp [Draw] at h

/-- C2 (amended): in every iteration of `Draw()`, if the present call
reports an out-of-date or suboptimal status, or the external resize flag
is set, then swapchain recreation is triggered in that iteration and the
resize flag is cleared; the status is handled at the call site rather than
propagated.  The status of the acquire call is discarded by the source and
does not by itself trigger recreation. -/
theorem draw_present_status_triggers_recreation (s : DrawState) (a p : VkResult)
    (h : p = VkResult.ERROR_OUT_OF_DATE_KHR ∨ p = VkResult.SUBOPTIMAL_KHR
          ∨ s.framebufferResized = true) :
    (Draw s a p).recreatedSwapChain = true
    ∧ (Draw s a p).state.framebufferResized = false := by
  have hrec : ((p == VkResult.ERROR_OUT_OF_DATE_KHR) || (p == VkResult.SUBOPTIMAL_KHR)
      || s.framebufferResized) = true := by
    rcases h with h | h | h <;> simp [h]
  exact ⟨by simp [Draw, hrec], by simp [Draw, hrec]⟩

/-- Witness for the amended C2, at a state whose resize flag is set and
with both calls succeeding. -/
theorem draw_present_status_triggers_recreation_witness :
    (Draw ⟨0, true⟩ VkResult.SUCCESS VkResult.SUCCESS).recreatedSwapChain = true
    ∧ (Draw ⟨0, true⟩ VkResult.SUCCESS
        VkResult.SUCCESS).state.framebufferResized = false :=
  draw_present_status_triggers_recreation ⟨0, true⟩ VkResult.SUCCESS VkResult.SUCCESS
    (Or.inr (Or.inr rfl))

/-- C5: in both the vertex and the index upload, the one-shot transfer
command buffer is submitted and the transfer queue fully drained
(`vkQueueWaitIdle`) strictly before the staging buffer is destroyed and
its memory freed, the recorded copy precedes the submit, and by the time
the routine returns the staging buffer has been destroyed and its memory
freed exactly once. -/
theorem staging_destroyed_only_after_queue_idle :
    (CreateVertexBuffer.count UploadEvent.queueSubmit = 1
      ∧ CreateVertexBuffer.count UploadEvent.queueWaitIdle = 1
      ∧ CreateVertexBuffer.count UploadEvent.destroyStagingBuffer = 1
      ∧ CreateVertexBuffer.count UploadEvent.freeStagingMemory = 1
      ∧ CreateVertexBuffer.indexOf UploadEvent.cmdCopyBuffer
          < CreateVertexBuffer.indexOf UploadEvent.queueSubmit
      ∧ CreateVertexBuffer.indexOf UploadEvent.queueSubmit
          < CreateVertexBuffer.indexOf UploadEvent.queueWaitIdle
      ∧ CreateVertexBuffer.indexOf UploadEvent.queueWaitIdle
          < CreateVertexBuffer.indexOf UploadEvent.destroyStagingBuffer
      ∧ CreateVertexBuffer.indexOf UploadEvent.destroyStagingBuffer
          < CreateVertexBuffer.indexOf UploadEvent.freeStagingMemory)
    ∧ (CreateIndexBuffer.count UploadEvent.queueSubmit = 1
      ∧ CreateIndexBuffer.count UploadEvent.queueWaitIdle = 1
      ∧ CreateIndexBuffer.count UploadEvent.destroyStagingBuffer = 1
      ∧ CreateIndexBuffer.count UploadEvent.freeStagingMemory = 1
      ∧ CreateIndexBuffer.indexOf UploadEvent.cmdCopyBuffer
          < CreateIndexBuffer.indexOf UploadEvent.queueSubmit
      ∧ CreateIndexBuffer.indexOf UploadEvent.queueSubmit
          < CreateIndexBuffer.indexOf UploadEvent.queueWaitIdle
      ∧ CreateIndexBuffer.indexOf UploadEvent.queueWaitIdle
          < CreateIndexBuffer.indexOf UploadEvent.destroyStagingBuffer
      ∧ CreateIndexBuffer.indexOf UploadEvent.destroyStagingBuffer
          < CreateIndexBuffer.indexOf UploadEvent.freeStagingMemory) := by
  decide

/-- Each `Draw` call advances `currentFrame` by one modulo
`MAX_FRAME_DRAWS`, whether or not it recreated the swapchain. -/
theorem Draw_advances_currentFrame (s : DrawState) (a p : VkResult) :
    (Draw s a p).state.currentFrame = (s.currentFrame + 1) % MAX_FRAME_DRAWS := rfl

/-- Helper for C6: `DrawSeq` adds the number of draw calls to a
normalized frame index, modulo `MAX_FRAME_DRAWS`. -/
theorem DrawSeq_currentFrame (s : DrawState) (results : List (VkResult × VkResult))
    (hs : s.currentFrame < MAX_FRAME_DRAWS) :
    (DrawSeq s results).currentFrame
      = (s.currentFrame + results.length) % MAX_FRAME_DRAWS := by
  induction results generalizing s with
  | nil =>
    simpa [DrawSeq] using (Nat.mod_eq_of_lt hs).symm
  | cons r rs ih =>
    have hstep : DrawSeq s (r :: rs) = DrawSeq (Draw s r.1 r.2).state rs := rfl
    have hlt : (Draw s r.1 r.2).state.currentFrame < MAX_FRAME_DRAWS := by
      rw [Draw_advances_currentFrame]
      exact Nat.mod_lt _ (by decide)
    rw [hstep, ih _ hlt, Draw_advances_currentFrame]
    simp only [MAX_FRAME_DRAWS, List.length_cons]
    omega

/-- C6: starting from `currentFrame = 0`, after `k` calls to `Draw()` the
value of `currentFrame` equals `k mod MAX_FRAME_DRAWS`, whatever statuses
the acquire and present calls reported (so regardless of which calls
triggered swapchain recreation) and whatever the initial resize flag. -/
theorem currentFrame_wraparound (b : Bool) (results : List (VkResult × VkResult)) :
    (DrawSeq ⟨0, b⟩ results).currentFrame = results.length % MAX_FRAME_DRAWS := by
  have h0 : (⟨0, b⟩ : DrawState).currentFrame < MAX_FRAME_DRAWS := by
    show 0 < MAX_FRAME_DRAWS
    decide
  simpa using DrawSeq_currentFrame ⟨0, b⟩ results h0

/-- C7: the requested swapchain image count is `minImageCount + 1` when
`maxImageCount` is zero or at least `minImageCount + 1`, and is
`maxImageCount` when that bound is nonzero and smaller than
`minImageCount + 1`.  The hypothesis rules out the (physically absurd)
uint32_t overflow of `minImageCount + 1`. -/
theorem swapChainImageCount_clamped (caps : VkSurfaceCapabilitiesKHR)
    (hsmall : caps.minImageCount + 1 < 2 ^ 32) :
    (caps.maxImageCount = 0 ∨ caps.minImageCount + 1 ≤ caps.maxImageCount →
      swapChainImageCount caps = caps.minImageCount + 1)
    ∧ (caps.maxImageCount ≠ 0 ∧ caps.maxImageCount < caps.minImageCount + 1 →
      swapChainImageCount caps = caps.maxImageCount) := by
  have hmod : (caps.minImageCount + 1) % 2 ^ 32 = caps.minImageCount + 1 :=
    Nat.mod_eq_of_lt hsmall
  simp only [swapChainImageCount, hmod]
  constructor
  · intro h
    split_ifs with h1 <;> omega
  · intro h
    split_ifs with h1 <;> omega

/-- Witness for C7: capabilities with `minImageCount = 2` and no upper
bound give 3 images; the same minimum with an upper bound of 2 gives 2. -/
theorem swapChainImageCount_clamped_witness :
    swapChainImageCount ⟨2, 0, ⟨0, 0⟩, ⟨0, 0⟩, ⟨0, 0⟩⟩ = 3
    ∧ swapChainImageCount ⟨2, 2, ⟨0, 0⟩, ⟨0, 0⟩, ⟨0, 0⟩⟩ = 2 :=
  ⟨(swapChainImageCount_clamped ⟨2, 0, ⟨0, 0⟩, ⟨0, 0⟩, ⟨0, 0⟩⟩ (by norm_num)).1
      (Or.inl rfl),
   (swapChainImageCount_clamped ⟨2, 2, ⟨0, 0⟩, ⟨0, 0⟩, ⟨0, 0⟩⟩ (by norm_num)).2
      (by norm_num)⟩

/-- The capabilities of the concrete extent-clamping instance: the surface
does not dictate a fixed size, the minimum image extent is (100, 100) and
the maximum is (1000, 1000). -/
def clampExampleCaps : VkSurfaceCapabilitiesKHR :=
  ⟨0, 0, ⟨UINT32_MAX, 0⟩, ⟨100, 100⟩, ⟨1000, 1000⟩⟩

/-- C8: when the surface does not dictate a fixed size
(`currentExtent.width = UINT32_MAX`), the computed swap extent is the
requested framebuffer size clamped per component to the surface's min/max
image extent; in particular with minima (100, 100), maxima (1000, 1000)
and request (50, 2000), the result is (100, 1000). -/
theorem ChooseSwapExtent_clamps (caps : VkSurfaceCapabilitiesKHR)
    (fb : VkExtent2D) (hfree : caps.currentExtent.width = UINT32_MAX) :
    (ChooseSwapExtent caps fb).width
        = max caps.minImageExtent.width (min caps.maxImageExtent.width fb.width)
    ∧ (ChooseSwapExtent caps fb).height
        = max caps.minImageExtent.height (min caps.maxImageExtent.height fb.height)
    ∧ ChooseSwapExtent clampExampleCaps ⟨50, 2000⟩ = ⟨100, 1000⟩ := by
  refine ⟨?_, ?_, by decide⟩ <;> simp [ChooseSwapExtent, hfree]

/-- Witness for C8, at the concrete capabilities and request of the
claim. -/
theorem ChooseSwapExtent_clamps_witness :
    ChooseSwapExtent clampExampleCaps ⟨50, 2000⟩ = ⟨100, 1000⟩ :=
  (ChooseSwapExtent_clamps clampExampleCaps ⟨50, 2000⟩ rfl).2.2

/-- Unfolding step for the presentation-mode search loop. -/
theorem ChooseBestPresentationMode_cons (m : VkPresentModeKHR)
    (ms : List VkPresentModeKHR) :
    ChooseBestPresentationMode (m :: ms)
      = if m = VkPresentModeKHR.MAILBOX then m else ChooseBestPresentationMode ms := by
  by_cases hm : m = VkPresentModeKHR.MAILBOX
  · rw [ChooseBestPresentationMode, List.find?_cons_of_pos _ (by simp [hm]), if_pos hm]
  · rw [ChooseBestPresentationMode, List.find?_cons_of_neg _ (by simp [hm]), if_neg hm]
    rfl

/-- C9: the present-mode selector returns the mailbox mode whenever the
input list contains it, and the FIFO mode otherwise. -/
theorem ChooseBestPresentationMode_spec (modes : List VkPresentModeKHR) :
    (VkPresentModeKHR.MAILBOX ∈ modes →
      ChooseBestPresentationMode modes = VkPresentModeKHR.MAILBOX)
    ∧ (VkPresentModeKHR.MAILBOX ∉ modes →
      ChooseBestPresentationMode modes = VkPresentModeKHR.FIFO) := by
  induction modes with
  | nil =>
    exact ⟨fun h => absurd h (List.not_mem_nil _), fun _ => rfl⟩
  | cons m ms ih =>
    constructor
    · intro h
      rw [ChooseBestPresentationMode_cons]
      by_cases hm : m = VkPresentModeKHR.MAILBOX
      · rw [if_pos hm, hm]
      · rw [if_neg hm]
        exact ih.1 (by
          rcases List.mem_cons.mp h with h1 | h1
          · exact absurd h1.symm hm
          · exact h1)
    · intro h
      rw [ChooseBestPresentationMode_cons]
      have hm : m ≠ VkPresentModeKHR.MAILBOX := by
        intro he
        exact h (he ▸ List.mem_cons_self m ms)
      rw [if_neg hm]
      exact ih.2 (fun hmem => h (List.mem_cons_of_mem m hmem))

/-- Witness for C9: a list containing the mailbox mode yields it, and a
list without it yields FIFO. -/
theorem ChooseBestPresentationMode_spec_witness :
    ChooseBestPresentationMode
        [VkPresentModeKHR.FIFO, VkPresentModeKHR.MAILBOX] = VkPresentModeKHR.MAILBOX
    ∧ ChooseBestPresentationMode [VkPresentModeKHR.IMMEDIATE] = VkPresentModeKHR.FIFO :=
  ⟨(ChooseBestPresentationMode_spec
      [VkPresentModeKHR.FIFO, VkPresentModeKHR.MAILBOX]).1 (by decide),
   (ChooseBestPresentationMode_spec [VkPresentModeKHR.IMMEDIATE]).2 (by decide)⟩

/-- A concrete resource state for the recreation-order counterexample:
three framebuffers, three swapchain image views, three view-projection
uniform buffers with their memories. -/
def recreateCexResources : SwapchainResources :=
  ⟨[1, 2, 3], [4, 5, 6], [7, 8, 9], [10, 11, 12]⟩

/-- C4 counterexample: the claim states that the recreation routine
destroys the depth buffer before the image views and the old swapchain,
but in `RecreateSwapChain` the swapchain (and its image views) is
destroyed strictly before the depth buffer: in the call trace at a
concrete state, `vkDestroySwapchainKHR` precedes the destruction of the
depth image view. -/
theorem recreation_destroys_depth_after_swapchain :
    TeardownEvent.destroySwapchain ∈ RecreateSwapChain recreateCexResources
    ∧ TeardownEvent.destroyDepthImageView ∈ RecreateSwapChain recreateCexResources
    ∧ (RecreateSwapChain recreateCexResources).indexOf TeardownEvent.destroySwapchain
        < (RecreateSwapChain recreateCexResources).indexOf
            TeardownEvent.destroyDepthImageView := by
  decide

/-- C4 (amended): every execution of the swapchain recreation routine
first waits for the device to go idle, then destroys the framebuffers,
the image views, and the old swapchain in that order, and then the depth
buffer (view, image, memory); it then re-runs swapchain creation followed
by recreation of the depth buffer, the framebuffers, and the cached
projection matrix, before returning.  The uniform-buffer cleanup loop of
`CleanupFramebuffers` contributes no calls, because its bound — the size
of `m_swapChainImages` — has already been cleared to zero by
`CleanupSwapChain`. -/
theorem RecreateSwapChain_order (r : SwapchainResources) :
    RecreateSwapChain r
      = TeardownEvent.deviceWaitIdle ::
          (r.swapChainFramebuffers.map TeardownEvent.destroyFramebuffer
            ++ r.swapChainImages.map TeardownEvent.destroyImageView
            ++ [TeardownEvent.destroySwapchain,
                TeardownEvent.destroyDepthImageView, TeardownEvent.destroyDepthImage,
                TeardownEvent.freeDepthImageMemory,
                TeardownEvent.callCreateSwapChain,
                TeardownEvent.callCreateDepthBufferImage,
                TeardownEvent.callCreateFramebuffers,
                TeardownEvent.callCreateViewProjUBO]) := by
  simp [RecreateSwapChain, CleanupSwapChain, CleanupFramebuffers, CleanupDepthBuffer]

/-- Helper: a successful `find?` returns the first element satisfying the
predicate. -/
theorem find?_eq_some_first {α : Type} (p : α → Bool) (L : List α) (a : α)
    (h : L.find? p = some a) :
    ∃ i : Fin L.length, L.get i = a ∧ p a = true
      ∧ ∀ j : Fin L.length, (j : Nat) < (i : Nat) → p (L.get j) = false := by
  induction L with
  | nil => simp at h
  | cons x xs ih =>
    by_cases hx : p x = true
    · rw [List.find?_cons_of_pos _ hx] at h
      obtain rfl : x = a := by injection h
      exact ⟨⟨0, by simp⟩, rfl, hx, fun j hj => by simp at hj⟩
    · rw [List.find?_cons_of_neg _ (by simpa using hx)] at h
      obtain ⟨i, hget, hpa, hfirst⟩ := ih h
      refine ⟨⟨i.1 + 1, by have h2 := i.2; simp only [List.length_cons]; omega⟩,
        by simpa using hget, hpa, ?_⟩
      rintro ⟨j, hjlt⟩ hj
      cases j with
      | zero => simpa using hx
      | succ k =>
        have hk : k < xs.length := by
          simp only [List.length_cons] at hjlt
          omega
        have := hfirst ⟨k, hk⟩ (by simpa using hj)
        simpa using this

/-- The input list refuting C3: two sRGB-nonlinear UNORM entries, the
BGRA one first. -/
def surfaceFormatCexList : List VkSurfaceFormatKHR :=
  [⟨VkFormat.B8G8R8A8_UNORM, VkColorSpaceKHR.SRGB_NONLINEAR⟩,
   ⟨VkFormat.R8G8B8A8_UNORM, VkColorSpaceKHR.SRGB_NONLINEAR⟩]

/-- C3 counterexample: the claim states that whenever the (non-singleton-
UNDEFINED) list contains `{R8G8B8A8_UNORM, SRGB_NONLINEAR}` the selector
returns that entry, but the source loop also accepts
`B8G8R8A8_UNORM`: on a list holding the BGRA entry first, the selector
returns the BGRA entry instead. -/
theorem surfaceFormat_claim_refuted :
    surfaceFormatCexList ≠ []
    ∧ ¬ (surfaceFormatCexList.length = 1
          ∧ surfaceFormatCexList.headI.format = VkFormat.UNDEFINED)
    ∧ (⟨VkFormat.R8G8B8A8_UNORM, VkColorSpaceKHR.SRGB_NONLINEAR⟩ : VkSurfaceFormatKHR)
        ∈ surfaceFormatCexList
    ∧ ChooseBestSurfaceFormat surfaceFormatCexList
        ≠ ⟨VkFormat.R8G8B8A8_UNORM, VkColorSpaceKHR.SRGB_NONLINEAR⟩ := by
  decide

/-- C3 (amended): for every non-empty format list, a singleton whose
format is UNDEFINED yields the fixed default
`{R8G8B8A8_UNORM, SRGB_NONLINEAR}`; otherwise, if no entry has format
`R8G8B8A8_UNORM` or `B8G8R8A8_UNORM` with color space `SRGB_NONLINEAR`
the selector returns the first entry of the list, and if some entry does,
the selector returns the first such entry. -/
theorem ChooseBestSurfaceFormat_spec (L : List VkSurfaceFormatKHR) (hne : L ≠ []) :
    (L.length = 1 ∧ L.headI.format = VkFormat.UNDEFINED →
      ChooseBestSurfaceFormat L
        = ⟨VkFormat.R8G8B8A8_UNORM, VkColorSpaceKHR.SRGB_NONLINEAR⟩)
    ∧ (¬ (L.length = 1 ∧ L.headI.format = VkFormat.UNDEFINED) →
        ((∀ f ∈ L, isPreferredSurfaceFormat f = false) →
            ChooseBestSurfaceFormat L = L.headI)
        ∧ (∀ g ∈ L, isPreferredSurfaceFormat g = true →
            ∃ i : Fin L.length,
              ChooseBestSurfaceFormat L = L.get i
              ∧ isPreferredSurfaceFormat (L.get i) = true
              ∧ ∀ j : Fin L.length, (j : Nat) < (i : Nat) →
                  isPreferredSurfaceFormat (L.get j) = false)) := by
  have hne2 := hne
  constructor
  · intro h
    rw [ChooseBestSurfaceFormat, if_pos h]
  · intro hnot
    constructor
    · intro hall
      rw [ChooseBestSurfaceFormat, if_neg hnot]
      have hnone : L.find? isPreferredSurfaceFormat = none :=
        List.find?_eq_none.mpr (fun x hx => by simp [hall x hx])
      rw [hnone]
    · intro g hg hgp
      cases hfind : L.find? isPreferredSurfaceFormat with
      | none =>
        exact absurd hgp (by simpa using List.find?_eq_none.mp hfind g hg)
      | some f =>
        obtain ⟨i, hget, hpa, hfirst⟩ := find?_eq_some_first _ _ _ hfind
        refine ⟨i, ?_, by rw [hget]; exact hpa, hfirst⟩
        rw [ChooseBestSurfaceFormat, if_neg hnot, hfind]
        exact hget.symm

/-- Witness for the amended C3: a singleton UNDEFINED list yields the
fixed default, and a list with no preferred entry yields its first
entry. -/
theorem ChooseBestSurfaceFormat_spec_witness :
    ChooseBestSurfaceFormat [⟨VkFormat.UNDEFINED, VkColorSpaceKHR.otherColorSpace 0⟩]
        = ⟨VkFormat.R8G8B8A8_UNORM, VkColorSpaceKHR.SRGB_NONLINEAR⟩
    ∧ ChooseBestSurfaceFormat
        [⟨VkFormat.otherFormat 7, VkColorSpaceKHR.SRGB_NONLINEAR⟩]
        = ⟨VkFormat.otherFormat 7, VkColorSpaceKHR.SRGB_NONLINEAR⟩ :=
  ⟨(ChooseBestSurfaceFormat_spec
      [⟨VkFormat.UNDEFINED, VkColorSpaceKHR.otherColorSpace 0⟩] (by decide)).1
      (by exact ⟨rfl, rfl⟩),
   (((ChooseBestSurfaceFormat_spec
      [⟨VkFormat.otherFormat 7, VkColorSpaceKHR.SRGB_NONLINEAR⟩] (by decide)).2
      (by decide)).1 (by decide))⟩

/-- C10: an `UpdateModel(modelID, newModel)` call with `modelID` out of
range of the mesh list is a no-op on the entire renderer state; in range,
it replaces exactly the model matrix of mesh `modelID`, leaving that
mesh's other members, every other mesh, the list length, and the other
renderer members unchanged. -/
theorem UpdateModel_only_touches_target_model (r : RendererModelState)
    (modelID : Nat) (newModel : mat4) :
    (modelID ≥ r.meshList.length → UpdateModel r modelID newModel = r)
    ∧ (modelID < r.meshList.length →
        (UpdateModel r modelID newModel).meshList.length = r.meshList.length
        ∧ ((UpdateModel r modelID newModel).meshList.getD modelID default).model.mat
            = newModel
        ∧ ((UpdateModel r modelID newModel).meshList.getD modelID default).vertexCount
            = (r.meshList.getD modelID default).vertexCount
        ∧ ((UpdateModel r modelID newModel).meshList.getD modelID default).vertexBuffer
            = (r.meshList.getD modelID default).vertexBuffer
        ∧ ((UpdateModel r modelID
              newModel).meshList.getD modelID default).vertexBufferMemory
            = (r.meshList.getD modelID default).vertexBufferMemory
        ∧ ((UpdateModel r modelID newModel).meshList.getD modelID default).indexCount
            = (r.meshList.getD modelID default).indexCount
        ∧ ((UpdateModel r modelID newModel).meshList.getD modelID default).indexBuffer
            = (r.meshList.getD modelID default).indexBuffer
        ∧ ((UpdateModel r modelID
              newModel).meshList.getD modelID default).indexBufferMemory
            = (r.meshList.getD modelID default).indexBufferMemory
        ∧ ((UpdateModel r modelID newModel).meshList.getD modelID default).physicalDevice
            = (r.meshList.getD modelID default).physicalDevice
        ∧ ((UpdateModel r modelID newModel).meshList.getD modelID default).logicalDevice
            = (r.meshList.getD modelID default).logicalDevice
        ∧ ((UpdateModel r modelID newModel).meshList.getD modelID default).textureID
            = (r.meshList.getD modelID default).textureID
        ∧ (∀ j, j ≠ modelID →
            (UpdateModel r modelID newModel).meshList.getD j default
              = r.meshList.getD j default)
        ∧ (UpdateModel r modelID newModel).currentFrame = r.currentFrame
        ∧ (UpdateModel r modelID newModel).framebufferResized = r.framebufferResized) := by
  constructor
  · intro h
    simp only [UpdateModel]
    rw [if_pos h]
  · intro h
    have hcond : ¬ modelID ≥ r.meshList.length := by omega
    have hgetset :
        (r.meshList.set modelID
            ((r.meshList.getD modelID default).SetModel newModel)).getD modelID default
          = (r.meshList.getD modelID default).SetModel newModel := by
      rw [List.getD_eq_getElem?_getD, List.getElem?_set_self h]
      rfl
    have hother : ∀ j, j ≠ modelID →
        (r.meshList.set modelID
            ((r.meshList.getD modelID default).SetModel newModel)).getD j default
          = r.meshList.getD j default := by
      intro j hj
      rw [List.getD_eq_getElem?_getD, List.getElem?_set_ne (Ne.symm hj),
        ← List.getD_eq_getElem?_getD]
    simp only [UpdateModel]
    rw [if_neg hcond]
    refine ⟨by simp, ?_, ?_, ?_, ?_, ?_, ?_, ?_, ?_, ?_, ?_, ?_, rfl, rfl⟩
    · rw [hgetset]
      rfl
    · rw [hgetset]
      rfl
    · rw [hgetset]
      rfl
    · rw [hgetset]
      rfl
    · rw [hgetset]
      rfl
    · rw [hgetset]
      rfl
    · rw [hgetset]
      rfl
    · rw [hgetset]
      rfl
    · rw [hgetset]
      rfl
    · rw [hgetset]
      rfl
    · intro j hj
      exact hother j hj

/-- A concrete two-mesh renderer state for the `UpdateModel` witness. -/
def updateModelWitnessState : RendererModelState :=
  ⟨[⟨1, 2, 3, 4, 5, 6, 7, 8, ⟨⟨fun _ _ => 0⟩⟩, 0⟩,
    ⟨9, 10, 11, 12, 13, 14, 15, 16, ⟨⟨fun _ _ => 1⟩⟩, 1⟩], 0, false⟩

/-- A concrete replacement matrix for the `UpdateModel` witness. -/
def updateModelWitnessMat : mat4 := ⟨fun _ _ => 5⟩

/-- Witness for C10: on a two-mesh renderer, `UpdateModel` with id 5 is a
no-op, and with id 0 it installs the new matrix on mesh 0. -/
theorem UpdateModel_only_touches_target_model_witness :
    UpdateModel updateModelWitnessState 5 updateModelWitnessMat = updateModelWitnessState
    ∧ ((UpdateModel updateModelWitnessState 0
          updateModelWitnessMat).meshList.getD 0 default).model.mat
        = updateModelWitnessMat :=
  ⟨(UpdateModel_only_touches_target_model updateModelWitnessState 5
      updateModelWitnessMat).1 (by simp [updateModelWitnessState]),
   ((UpdateModel_only_touches_target_model updateModelWitnessState 0
      updateModelWitnessMat).2 (by simp [updateModelWitnessState])).2.1⟩

end VulkanCourse
